import Mathlib

/-!
Verification of the `arcgis-featureservice` client (src/index.js) against its
natural-language specification.

The JavaScript module is shallowly embedded: JSON-like runtime values become
the inductive `JSValue`, plain objects become ordered association lists
`List (String × JSValue)` (JS objects preserve insertion order), and the
callback-based operations become pure functions returning explicit outcome
values.  External collaborators (the `request` HTTP transport, the
`terraformer-arcgis-parser` converter, and the platform's `JSON.parse`) are
taken as parameters, exactly as the spec treats them as injected interfaces.
A statement that would throw a `TypeError` at run time (property access on
`null`/`undefined`, calling a non-function, `JSON.parse` on invalid input in
strict mode) is modelled by an explicit `threw` outcome: the callback is then
never invoked.
-/

namespace FeatureServiceSpec

/-- JavaScript numbers as needed by this module: integral values and `NaN`.
The module only ever produces numbers via `Number(...)` coercion of
identifiers and via `length` properties, so fractional values never arise in
any claim; they are outside this model. -/
inductive JSNum where
  | int (n : Int)
  | nan

/-- JSON-like JavaScript runtime values.  `undef` is JavaScript `undefined`
(the result of reading an absent property); objects are ordered association
lists, mirroring JS insertion order. -/
inductive JSValue where
  | undef
  | null
  | bool (b : Bool)
  | num (n : JSNum)
  | str (s : String)
  | arr (xs : List JSValue)
  | obj (fields : List (String × JSValue))

/-- JavaScript truthiness: `undefined`, `null`, `false`, `0`, `NaN` and the
empty string are falsy; every other value (including any object or array) is
truthy. -/
def isTruthy : JSValue → Bool
  | JSValue.undef => false
  | JSValue.null => false
  | JSValue.bool b => b
  | JSValue.num (JSNum.int (Int.ofNat 0)) => false
  | JSValue.num (JSNum.int _) => true
  | JSValue.num JSNum.nan => false
  | JSValue.str s => !s.isEmpty
  | JSValue.arr _ => true
  | JSValue.obj _ => true

/-- `undefined` test, as used by lodash `defaults` (`value === undefined`). -/
def isUndef : JSValue → Bool
  | JSValue.undef => true
  | _ => false

/-- `null`-or-`undefined` test: property access on such a base throws a
`TypeError` in JavaScript. -/
def isNullish : JSValue → Bool
  | JSValue.undef => true
  | JSValue.null => true
  | _ => false

/-- First-match lookup in an object's field list; an absent key reads as
`undefined`, as in JavaScript. -/
def lookupJS : List (String × JSValue) → String → JSValue
  | [], _ => JSValue.undef
  | p :: fs, k => if p.1 = k then p.2 else lookupJS fs k

/-- Whether an object's field list carries the key at all. -/
def hasKey : List (String × JSValue) → String → Bool
  | [], _ => false
  | p :: fs, k => if p.1 = k then true else hasKey fs k

/-- JavaScript property assignment `o[k] = v` on an object's field list:
replaces the first binding of `k` in place, or appends a new binding
(JS insertion order). -/
def setKey : List (String × JSValue) → String → JSValue → List (String × JSValue)
  | [], k, v => [(k, v)]
  | p :: fs, k, v => if p.1 = k then (k, v) :: fs else p :: setKey fs k v

/-- Digit value of a character, for canonical numeric string keys. -/
def digitVal? (c : Char) : Option Nat :=
  if 48 ≤ c.toNat ∧ c.toNat ≤ 57 then some (c.toNat - 48) else none

/-- Accumulating decimal parse over characters. -/
def digitsVal : List Char → Nat → Option Nat
  | [], acc => some acc
  | c :: cs, acc =>
      match digitVal? c with
      | some d => digitsVal cs (acc * 10 + d)
      | none => none

/-- Parse a non-empty all-digit string as a natural number (array index). -/
def strNat? (s : String) : Option Nat :=
  match s.data with
  | [] => none
  | cs => digitsVal cs 0

/-- JavaScript property read `v[k]` on a non-nullish base (never throws):
objects look the key up; arrays and strings expose `length` and numeric
indices (a string index yields a one-character string); every other read is
`undefined`. -/
def getProp (v : JSValue) (k : String) : JSValue :=
  match v with
  | JSValue.obj fs => lookupJS fs k
  | JSValue.arr xs =>
      if k = "length" then JSValue.num (JSNum.int (Int.ofNat xs.length))
      else
        match strNat? k with
        | some i =>
            match xs.get? i with
            | some x => x
            | none => JSValue.undef
        | none => JSValue.undef
  | JSValue.str s =>
      if k = "length" then JSValue.num (JSNum.int (Int.ofNat s.length))
      else
        match strNat? k with
        | some i =>
            match s.data.get? i with
            | some c => JSValue.str (String.mk [c])
            | none => JSValue.undef
        | none => JSValue.undef
  | _ => JSValue.undef

/-- `Object.keys`: own enumerable keys in insertion order; arrays and strings
expose their index keys; primitives have none.  (The module only applies this
to truthy parsed JSON values, so the `null`/`undefined` `TypeError` case never
arises.) -/
def objectKeys : JSValue → List String
  | JSValue.obj fs => fs.map Prod.fst
  | JSValue.arr xs => (List.range xs.length).map (fun i => toString i)
  | JSValue.str s => (List.range s.length).map (fun i => toString i)
  | _ => []

/-- `json[Object.keys(json)[0]]` from `handleEsriResponse`: the value under
the body's first key.  When there is no key at all, `Object.keys(json)[0]` is
`undefined` and the subscript coerces to the string key `"undefined"`. -/
def firstKeyVal (v : JSValue) : JSValue :=
  match objectKeys v with
  | [] => getProp v "undefined"
  | k :: _ => getProp v k

/-- Truthiness of `v.map`: arrays have the `Array.prototype.map` function;
a plain object is only as good as its own `map` member; strings and other
primitives have none.  (JSON-derived values never hold real functions, so a
truthy `map` member of a plain object is never callable.) -/
def hasTruthyMap : JSValue → Bool
  | JSValue.arr _ => true
  | JSValue.obj fs => isTruthy (lookupJS fs "map")
  | _ => false

/-- The `get` handler's guard `!(!body.features || !body.features.map)`:
the features value is truthy and has a truthy `map`. -/
def isFeaturesUsable (v : JSValue) : Bool :=
  isTruthy v && hasTruthyMap v

/-- The mutation handler's guard `!(!results || !results.length)`: the
results value is truthy and has a truthy `length` — i.e. it is a non-empty
list-like value (in JavaScript, exactly the truthy values with a truthy
`length` property). -/
def isNonEmptyListLike (v : JSValue) : Bool :=
  isTruthy v && isTruthy (getProp v "length")

/-- `Number(...)` on a string, restricted to the shapes this module meets:
blank strings coerce to `0`, optionally-negated decimal integer literals to
their value, and anything else to `NaN`.  (Fractional, hex and exponent
literals are outside this model; no claim involves them.) -/
def strToNumModel (s : String) : JSNum :=
  match (s.trim).data with
  | [] => JSNum.int 0
  | '-' :: cs =>
      (match cs with
       | [] => JSNum.nan
       | _ =>
          match digitsVal cs 0 with
          | some n => JSNum.int (- (Int.ofNat n))
          | none => JSNum.nan)
  | cs =>
      match digitsVal cs 0 with
      | some n => JSNum.int (Int.ofNat n)
      | none => JSNum.nan

/-- JavaScript `Number(...)` coercion as used on identifier attributes:
`undefined` gives `NaN`, `null` gives `0`, booleans give `0`/`1`, numbers
pass through, strings parse as above.  Array/object coercion (via
`toPrimitive`) is modelled as `NaN`; no claim feeds a container to
`Number`. -/
def jsNumber : JSValue → JSNum
  | JSValue.undef => JSNum.nan
  | JSValue.null => JSNum.int 0
  | JSValue.bool b => JSNum.int (cond b 1 0)
  | JSValue.num n => n
  | JSValue.str s => strToNumModel s
  | JSValue.arr _ => JSNum.nan
  | JSValue.obj _ => JSNum.nan

/-- String coercion for URL concatenation (`this.settings.url + suffix`).
Scalar cases follow JavaScript exactly; an array joins its elements in JS,
which is not modelled (no claim concerns an array-valued `url`). -/
def jsToString : JSValue → String
  | JSValue.undef => "undefined"
  | JSValue.null => "null"
  | JSValue.bool b => cond b "true" "false"
  | JSValue.num (JSNum.int n) => toString n
  | JSValue.num JSNum.nan => "NaN"
  | JSValue.str s => s
  | JSValue.arr _ => ""
  | JSValue.obj _ => "[object Object]"

/-- Escape for `JSON.stringify` string output: quote and backslash.
(Control-character escapes are not modelled; no claim serializes them.) -/
def jsonEscapeChar (c : Char) : String :=
  if c = '"' then "\\\"" else if c = '\\' then "\\\\" else String.mk [c]

/-- Quote a string as a JSON string literal. -/
def jsonQuote (s : String) : String :=
  "\"" ++ String.join (s.data.map jsonEscapeChar) ++ "\""

/-- Comma-join serialized parts. -/
def joinComma : List String → String
  | [] => ""
  | [x] => x
  | x :: y :: xs => x ++ "," ++ joinComma (y :: xs)

mutual

/-- `JSON.stringify`: `undefined` and `NaN` render as `null` inside arrays,
object members with `undefined` values are omitted, and insertion order is
preserved. -/
def jsonStringify : JSValue → String
  | JSValue.undef => "null"
  | JSValue.null => "null"
  | JSValue.bool b => cond b "true" "false"
  | JSValue.num (JSNum.int n) => toString n
  | JSValue.num JSNum.nan => "null"
  | JSValue.str s => jsonQuote s
  | JSValue.arr xs => "[" ++ joinComma (stringifyElems xs) ++ "]"
  | JSValue.obj fs => "\x7b" ++ joinComma (stringifyFields fs) ++ "\x7d"

/-- Serialize array elements in order. -/
def stringifyElems : List JSValue → List String
  | [] => []
  | x :: xs => jsonStringify x :: stringifyElems xs

/-- Serialize object members in order, omitting `undefined` values. -/
def stringifyFields : List (String × JSValue) → List String
  | [] => []
  | p :: fs =>
      if isUndef p.2 then stringifyFields fs
      else (jsonQuote p.1 ++ ":" ++ jsonStringify p.2) :: stringifyFields fs

end

/-- lodash `defaults(obj, source)`: every key of `obj` keeps its value unless
that value is `undefined`, in which case the source value (if any) fills it
in place; keys of `source` absent from `obj` are appended in source order.
The first argument is the object lodash mutates and returns. -/
def defaults (obj source : List (String × JSValue)) : List (String × JSValue) :=
  obj.map (fun p => if isUndef p.2 then (p.1, lookupJS source p.1) else p)
  ++ source.filter (fun q => !(hasKey obj q.1))

/-- Field list of an object value.  lodash `defaults` over a primitive boxes
it in JS; that corner is modelled as an empty field list (every claim
supplies an object here). -/
def objFields : JSValue → List (String × JSValue)
  | JSValue.obj fs => fs
  | _ => []

/-- The constructor's built-in `defaultResultOptions`, in source order
(src/index.js lines 24-33). -/
def builtinResultOptions : List (String × JSValue) :=
  [("returnCountsOnly", JSValue.bool false),
   ("returnIdsOnly", JSValue.bool false),
   ("returnGeometry", JSValue.bool true),
   ("outSR", JSValue.str "4326"),
   ("outFields", JSValue.str "*"),
   ("f", JSValue.str "json")]

/-- `this.defaultSettings`: the sole top-level default is the nested
`defaultResultOptions` object. -/
def defaultSettings : List (String × JSValue) :=
  [("defaultResultOptions", JSValue.obj builtinResultOptions)]

/-- The constructed client.  `settings` is `this.settings`; `token` is the
instance property `this.token`, which the constructor never assigns and which
therefore reads as `undefined` (the operations send `this.token`, not
`this.settings.token`). -/
structure FSInstance where
  settings : List (String × JSValue)
  token : JSValue

/-- Line 35 of the constructor: `defaults(options, this.defaultSettings)`.
lodash mutates and returns `options`, so from here on `options` and
`this.settings` are the same object. -/
def mergedSettings (opts : List (String × JSValue)) : List (String × JSValue) :=
  defaults opts defaultSettings

/-- `function FeatureService(options)` (src/index.js lines 17-40):
without options the defaults are used as-is; with options they are merged
over the defaults, and — because line 35 already filled
`options.defaultResultOptions` through the alias — the truthiness test on
line 37 reads the merged value, after which `settings.defaultResultOptions`
is re-merged over the built-in result options.  `this.token` is never
assigned. -/
def mkFeatureService : Option (List (String × JSValue)) → FSInstance
  | none => FSInstance.mk defaultSettings JSValue.undef
  | some opts =>
      cond (isTruthy (lookupJS (mergedSettings opts) "defaultResultOptions"))
        (FSInstance.mk
          (setKey (mergedSettings opts) "defaultResultOptions"
            (JSValue.obj (defaults (objFields (lookupJS (mergedSettings opts) "defaultResultOptions"))
              builtinResultOptions)))
          JSValue.undef)
        (FSInstance.mk (mergedSettings opts) JSValue.undef)

/-- The structured `Error` object the module builds: its message and the
`code`, `details` and `result` fields that the handlers attach (`undef` when
a handler does not set them). -/
structure JErr where
  message : JSValue
  code : JSValue
  details : JSValue
  result : JSValue

/-- The shape error raised when the mutation response body is absent or
falsy after parsing (src/index.js line 168). -/
def nullBodyErr : JErr :=
  JErr.mk (JSValue.str "Response body was null or could not be parsed")
    JSValue.undef JSValue.undef JSValue.undef

/-- The shape error raised when the first key's value is missing or has no
truthy length (src/index.js line 178). -/
def resultsErr : JErr :=
  JErr.mk (JSValue.str "Results object not found or is not as expected")
    JSValue.undef JSValue.undef JSValue.undef

/-- Outcome of one `get` call's response handling: the callback receives the
transport error unchanged, or a domain error, or `(null, geojson)`; `threw`
marks an uncaught `TypeError`, after which the callback is never invoked. -/
inductive GetOutcome where
  | transportErr (e : JSValue)
  | domainErr (e : JErr)
  | success (geojson : JSValue)
  | threw

/-- Outcome of one mutation call's response handling: `success` is
`callback(null)` with no second argument; `threw` marks an uncaught
exception (the callback is never invoked). -/
inductive MutOutcome where
  | transportErr (e : JSValue)
  | domainErr (e : JErr)
  | success
  | threw

/-- The GeoJSON result literal of `get`:
an object with `type` and the converted `features`. -/
def featureCollection (gs : List JSValue) : JSValue :=
  JSValue.obj [("type", JSValue.str "FeatureCollection"), ("features", JSValue.arr gs)]

/-- `_getRequestCallback` (src/index.js lines 60-89), with the injected
converter `arcgis.parse` as the parameter `convert`.  A nullish body makes
`body.error` throw before any check; a truthy `error` member yields a domain
error carrying `message`, `code` and `details`; a missing or `map`-less
`features` yields the `features are undefined` error; an actual array maps
the converter over the features in order; a non-array that slipped past the
`map` guard would be called as a function and throw. -/
def getHandler (convert : JSValue → JSValue) (err body : JSValue) : GetOutcome :=
  cond (isTruthy err) (GetOutcome.transportErr err)
    (cond (isNullish body) GetOutcome.threw
      (cond (isTruthy (getProp body "error"))
        (GetOutcome.domainErr (JErr.mk (getProp (getProp body "error") "message")
          (getProp (getProp body "error") "code")
          (getProp (getProp body "error") "details") JSValue.undef))
        (cond (isFeaturesUsable (getProp body "features"))
          (match getProp body "features" with
           | JSValue.arr xs => GetOutcome.success (featureCollection (xs.map convert))
           | _ => GetOutcome.threw)
          (GetOutcome.domainErr (JErr.mk (JSValue.str "features are undefined")
            JSValue.undef JSValue.undef JSValue.undef)))))

/-- `handleEsriResponse` (src/index.js lines 155-199), shared by `add`,
`update` and `delete`.  `parse` is the platform's `JSON.parse`, returning
`none` where the real function throws — and the source's
`body && JSON.parse(body)` has no try/catch, so a `none` parse is an
uncaught exception (`threw`), not a callback.  A falsy body or falsy parsed
value yields the null-body error; then the value under the body's first key
must be truthy with a truthy `length`; its first element must not be nullish
(otherwise `result.success` throws); a truthy `success` flag completes with
`callback(null)`; a truthy `error` member yields a domain error from its
`description` and `code`; anything else yields the unexpected-result error
carrying the raw result. -/
def handleEsriResponse (parse : String → Option JSValue) (err : JSValue)
    (body : Option String) : MutOutcome :=
  cond (isTruthy err) (MutOutcome.transportErr err)
    (match body with
     | none => MutOutcome.domainErr nullBodyErr
     | some s =>
       cond s.isEmpty (MutOutcome.domainErr nullBodyErr)
         (match parse s with
          | none => MutOutcome.threw
          | some json =>
            cond (isTruthy json)
              (cond (isNonEmptyListLike (firstKeyVal json))
                (cond (isNullish (getProp (firstKeyVal json) "0")) MutOutcome.threw
                  (cond (isTruthy (getProp (getProp (firstKeyVal json) "0") "success"))
                    MutOutcome.success
                    (cond (isTruthy (getProp (getProp (firstKeyVal json) "0") "error"))
                      (MutOutcome.domainErr (JErr.mk
                        (getProp (getProp (getProp (firstKeyVal json) "0") "error") "description")
                        (getProp (getProp (getProp (firstKeyVal json) "0") "error") "code")
                        JSValue.undef JSValue.undef))
                      (MutOutcome.domainErr (JErr.mk
                        (JSValue.str "Feature service error: unexpected result")
                        JSValue.undef JSValue.undef (getProp (firstKeyVal json) "0"))))))
                (MutOutcome.domainErr resultsErr))
              (MutOutcome.domainErr nullBodyErr)))

/-- The GET request `get` issues: `{settings.url}/query` with the effective
query-string parameters. -/
structure GetRequest where
  url : String
  qs : List (String × JSValue)

/-- One full `get` call (src/index.js lines 48-90): the issued request, the
outcome the response handler produces, the instance as it stands after the
call, and the caller's params object after the call (lodash `defaults`
mutates it in place and line 52 then writes `token` into it). -/
structure GetExec where
  request : GetRequest
  outcome : GetOutcome
  instAfter : FSInstance
  paramsAfter : List (String × JSValue)

/-- `FeatureService.prototype.get`: effective parameters are
`defaults(params, this.settings.defaultResultOptions)` with `token` then
overwritten by `this.token`; the body of the method reads the settings and
never assigns to them. -/
def FSget (convert : JSValue → JSValue) (inst : FSInstance)
    (params : List (String × JSValue)) (err body : JSValue) : GetExec :=
  GetExec.mk
    (GetRequest.mk (jsToString (lookupJS inst.settings "url") ++ "/query")
      (setKey (defaults params (objFields (lookupJS inst.settings "defaultResultOptions")))
        "token" inst.token))
    (getHandler convert err body)
    inst
    (setKey (defaults params (objFields (lookupJS inst.settings "defaultResultOptions")))
      "token" inst.token)

/-- A POST request: endpoint URL and form fields, in source order. -/
structure PostRequest where
  url : String
  form : List (String × JSValue)

/-- `FeatureService.prototype.add` (src/index.js lines 96-109): convert the
feature with the injected `arcgis.convert`, then POST a form whose
`features` field is the JSON serialization of a one-element array. -/
def FSadd (convert : JSValue → JSValue) (inst : FSInstance) (geojson : JSValue) : PostRequest :=
  PostRequest.mk (jsToString (lookupJS inst.settings "url") ++ "/addFeatures")
    [("f", JSValue.str "json"),
     ("features", JSValue.str (jsonStringify (JSValue.arr [convert geojson]))),
     ("token", inst.token)]

/-- Lines 119-120 of `update`:
`esriJson.attributes.OBJECTID = Number(esriJson.attributes.OBJECTID)`.
The attribute written is the hard-coded name `OBJECTID`; the configured
`idField` is not consulted.  When `attributes` is not an object the
statement throws (reading off `null`/`undefined`, or assigning onto a
primitive in strict mode), modelled as `none`. -/
def coerceObjectId (esriJson : JSValue) : Option JSValue :=
  match esriJson with
  | JSValue.obj fs =>
      match lookupJS fs "attributes" with
      | JSValue.obj attrs =>
          some (JSValue.obj (setKey fs "attributes"
            (JSValue.obj (setKey attrs "OBJECTID"
              (JSValue.num (jsNumber (lookupJS attrs "OBJECTID")))))))
      | _ => none
  | _ => none

/-- `FeatureService.prototype.update` (src/index.js lines 115-131): convert,
coerce `OBJECTID`, then POST a form whose `features` field is the JSON
serialization of a one-element array; `none` when the coercion statement
throws. -/
def FSupdate (convert : JSValue → JSValue) (inst : FSInstance) (geojson : JSValue) :
    Option PostRequest :=
  match coerceObjectId (convert geojson) with
  | none => none
  | some esriJson =>
      some (PostRequest.mk (jsToString (lookupJS inst.settings "url") ++ "/updateFeatures")
        [("f", JSValue.str "json"),
         ("features", JSValue.str (jsonStringify (JSValue.arr [esriJson]))),
         ("token", inst.token)])

/-- `FeatureService.prototype.delete` (src/index.js lines 137-148): POST the
id through uninterpreted with `rollbackOnFailure` set. -/
def FSdelete (inst : FSInstance) (id : JSValue) : PostRequest :=
  PostRequest.mk (jsToString (lookupJS inst.settings "url") ++ "/deleteFeatures")
    [("objectIds", id),
     ("f", JSValue.str "json"),
     ("rollbackOnFailure", JSValue.bool true),
     ("token", inst.token)]

/-! Lemmas about lookup, the lodash `defaults` merge and property
assignment. -/

theorem lookupJS_append (l₁ l₂ : List (String × JSValue)) (k : String) :
    lookupJS (l₁ ++ l₂) k = if hasKey l₁ k = true then lookupJS l₁ k else lookupJS l₂ k := by
  induction l₁ with
  | nil => simp [lookupJS, hasKey]
  | cons p t ih =>
      by_cases h : p.1 = k
      · simp [lookupJS, hasKey, h]
      · simp [lookupJS, hasKey, h, ih]

theorem hasKey_defaults_map (obj src : List (String × JSValue)) (k : String) :
    hasKey (obj.map (fun p => if isUndef p.2 then (p.1, lookupJS src p.1) else p)) k
      = hasKey obj k := by
  induction obj with
  | nil => rfl
  | cons p t ih =>
      cases hu : isUndef p.2 <;> by_cases h : p.1 = k <;>
        simp [hasKey, hu, h, ih]

theorem lookupJS_map_defaults (obj src : List (String × JSValue)) (k : String)
    (h : hasKey obj k = true) :
    lookupJS (obj.map (fun p => if isUndef p.2 then (p.1, lookupJS src p.1) else p)) k
      = if isUndef (lookupJS obj k) = true then lookupJS src k else lookupJS obj k := by
  induction obj with
  | nil => simp [hasKey] at h
  | cons p t ih =>
      by_cases hpk : p.1 = k
      · cases hu : isUndef p.2 <;> simp [lookupJS, hpk, hu]
      · have ht : hasKey t k = true := by simpa [hasKey, hpk] using h
        cases hu : isUndef p.2 <;> simp [lookupJS, hpk, hu, ih ht]

theorem lookupJS_eq_undef_of_not_hasKey (obj : List (String × JSValue)) (k : String)
    (h : hasKey obj k = false) : lookupJS obj k = JSValue.undef := by
  induction obj with
  | nil => rfl
  | cons p t ih =>
      by_cases hpk : p.1 = k
      · simp [hasKey, hpk] at h
      · have ht : hasKey t k = false := by simpa [hasKey, hpk] using h
        simp [lookupJS, hpk, ih ht]

theorem lookupJS_filter_notKey (obj src : List (String × JSValue)) (k : String)
    (h : hasKey obj k = false) :
    lookupJS (src.filter (fun q => !(hasKey obj q.1))) k = lookupJS src k := by
  induction src with
  | nil => rfl
  | cons q t ih =>
      by_cases hqk : q.1 = k
      · simp [List.filter, h, lookupJS, hqk]
      · cases hk : hasKey obj q.1 <;> simp [List.filter, hk, lookupJS, hqk, ih]

/-- The characterizing equation of the lodash merge: a caller-supplied
(non-`undefined`) value wins, anything else falls back to the source. -/
theorem lookupJS_defaults (obj src : List (String × JSValue)) (k : String) :
    lookupJS (defaults obj src) k
      = if isUndef (lookupJS obj k) = true then lookupJS src k else lookupJS obj k := by
  rw [defaults, lookupJS_append, hasKey_defaults_map]
  cases h : hasKey obj k
  · rw [if_neg (by simp), lookupJS_filter_notKey obj src k h,
      lookupJS_eq_undef_of_not_hasKey obj k h]
    simp [isUndef]
  · rw [if_pos rfl, lookupJS_map_defaults obj src k h]

theorem lookupJS_setKey_self (fs : List (String × JSValue)) (k : String) (v : JSValue) :
    lookupJS (setKey fs k v) k = v := by
  induction fs with
  | nil => simp [setKey, lookupJS]
  | cons p t ih =>
      by_cases h : p.1 = k
      · simp [setKey, h, lookupJS]
      · simp [setKey, h, lookupJS, ih]

/-- Merging the built-in result options over themselves changes nothing:
this is what line 38 of the constructor computes when the caller supplied no
`defaultResultOptions` (line 35 already aliased the built-ins into
`options`). -/
theorem defaults_builtin_self :
    defaults builtinResultOptions builtinResultOptions = builtinResultOptions := rfl

/-! The claims. -/

/-- Claim C1: for every add, update or delete call whose transport reports no
error and whose response body parses to an object whose first key's value is
a non-empty array whose first element has a truthy `success` flag, the shared
mutation handler completes with `callback(null)` and no second argument
(`MutOutcome.success`). -/
theorem C1_mutation_success (parse : String → Option JSValue) (err : JSValue) (body : String)
    (fs : List (String × JSValue)) (r : JSValue) (rs : List JSValue)
    (herr : isTruthy err = false)
    (hbody : body.isEmpty = false)
    (hparse : parse body = some (JSValue.obj fs))
    (hres : firstKeyVal (JSValue.obj fs) = JSValue.arr (r :: rs))
    (hsucc : isTruthy (getProp r "success") = true) :
    handleEsriResponse parse err (some body) = MutOutcome.success := by
  have hnn : isNullish r = false := by
    cases r <;> simp_all [getProp, isTruthy, isNullish]
  have hzero : getProp (JSValue.arr (r :: rs)) "0" = r := rfl
  have hlen : isNonEmptyListLike (JSValue.arr (r :: rs)) = true := rfl
  have hobj : isTruthy (JSValue.obj fs) = true := rfl
  simp [handleEsriResponse, herr, hbody, hparse, hres, hlen, hzero, hnn, hsucc, hobj]

/-- Witness for C1 at a concrete successful `addResults` response. -/
theorem C1_mutation_success_witness :
    handleEsriResponse
      (fun _ => some (JSValue.obj [("addResults",
        JSValue.arr [JSValue.obj [("success", JSValue.bool true)]])]))
      (JSValue.bool false) (some "body") = MutOutcome.success :=
  C1_mutation_success _ (JSValue.bool false) "body" _ _ _ rfl rfl rfl rfl rfl

/-- Claim C2 (the code contradicts it): the effective `token` query parameter
of `get` is not the configured token.  With configuration
`{ url: 'u', token: 'secret' }`, the configured token is stored in
`settings`, yet the instance's `token` property — which line 52 writes into
the parameters — is `undefined`, so the effective `token` is `undefined`,
not `'secret'`.  The operations read `this.token`, which the constructor
never assigns, instead of `this.settings.token`. -/
theorem C2_token_always_undefined :
    lookupJS (mkFeatureService (some [("url", JSValue.str "u"),
        ("token", JSValue.str "secret")])).settings "token" = JSValue.str "secret"
    ∧ (mkFeatureService (some [("url", JSValue.str "u"),
        ("token", JSValue.str "secret")])).token = JSValue.undef
    ∧ lookupJS (FSget (fun v => v) (mkFeatureService (some [("url", JSValue.str "u"),
        ("token", JSValue.str "secret")])) [("where", JSValue.str "1=1")]
        JSValue.undef JSValue.null).request.qs "token" = JSValue.undef :=
  ⟨rfl, rfl, rfl⟩

/-- Claim C3 (the code contradicts it): `update` does not coerce the
attribute named by the configured `idField`.  With `idField: 'GID'` and a
converted feature whose attributes are `{ GID: '7' }`, the serialized
feature keeps `GID` as the string `'7'` and instead gains a hard-coded
`OBJECTID` attribute set to `Number(undefined) = NaN`. -/
theorem C3_update_coerces_hardcoded_objectid :
    FSupdate (fun _ => JSValue.obj [("geometry", JSValue.null),
        ("attributes", JSValue.obj [("GID", JSValue.str "7")])])
      (mkFeatureService (some [("url", JSValue.str "http://x/0"),
        ("idField", JSValue.str "GID"), ("token", JSValue.str "t")]))
      (JSValue.obj [])
    = some (PostRequest.mk "http://x/0/updateFeatures"
        [("f", JSValue.str "json"),
         ("features", JSValue.str (jsonStringify (JSValue.arr [JSValue.obj
           [("geometry", JSValue.null),
            ("attributes", JSValue.obj [("GID", JSValue.str "7"),
              ("OBJECTID", JSValue.num JSNum.nan)])]]))),
         ("token", JSValue.undef)]) := rfl

/-- Claim C4 (the code contradicts it): a non-empty response body that is not
parsable as JSON does not reach the callback at all — `JSON.parse` throws,
because `body && JSON.parse(body)` has no try/catch — whereas an absent body
does produce the claimed domain error.  `fun _ => none` stands for
`JSON.parse` on input it rejects. -/
theorem C4_unparsable_body_throws :
    handleEsriResponse (fun _ => none) (JSValue.bool false) (some "this is not json")
      = MutOutcome.threw
    ∧ handleEsriResponse (fun _ => none) (JSValue.bool false) none
      = MutOutcome.domainErr nullBodyErr :=
  ⟨rfl, rfl⟩

/-- Claim C5: for every get call whose transport reports no error, whose body
has no truthy `error` member and whose `features` field is an array
`[f1, ..., fn]`, the callback receives a null error and
`{ type: 'FeatureCollection', features: [convert f1, ..., convert fn] }`
with the features converted in input order. -/
theorem C5_get_success (convert : JSValue → JSValue) (err body : JSValue) (xs : List JSValue)
    (herr : isTruthy err = false)
    (hnoerr : isTruthy (getProp body "error") = false)
    (hfeat : getProp body "features" = JSValue.arr xs) :
    getHandler convert err body = GetOutcome.success (featureCollection (xs.map convert)) := by
  have hnn : isNullish body = false := by
    cases body <;> simp_all [getProp, lookupJS, isNullish]
  have hfe : isFeaturesUsable (JSValue.arr xs) = true := rfl
  simp [getHandler, herr, hnn, hnoerr, hfeat, hfe]

/-- Witness for C5 at a concrete one-feature response. -/
theorem C5_get_success_witness :
    getHandler (fun v => v) JSValue.undef
      (JSValue.obj [("features", JSValue.arr [JSValue.num (JSNum.int 1)])])
      = GetOutcome.success (featureCollection ([JSValue.num (JSNum.int 1)].map (fun v => v))) :=
  C5_get_success (fun v => v) JSValue.undef _ _ rfl rfl rfl

/-- Claim C6: for every add, update or delete call whose transport reports no
error and whose body parses to an object whose first key's value is missing,
not list-like, or an empty sequence — that is, not a truthy value with a
truthy `length` — the callback receives the domain error
`Results object not found or is not as expected`. -/
theorem C6_results_shape_error (parse : String → Option JSValue) (err : JSValue) (body : String)
    (fs : List (String × JSValue))
    (herr : isTruthy err = false)
    (hbody : body.isEmpty = false)
    (hparse : parse body = some (JSValue.obj fs))
    (hshape : isNonEmptyListLike (firstKeyVal (JSValue.obj fs)) = false) :
    handleEsriResponse parse err (some body) = MutOutcome.domainErr resultsErr := by
  have hobj : isTruthy (JSValue.obj fs) = true := rfl
  simp [handleEsriResponse, herr, hbody, hparse, hshape, hobj]

/-- Witness for C6 at the spec's own example `{ addResults: [] }`. -/
theorem C6_results_shape_error_witness :
    handleEsriResponse (fun _ => some (JSValue.obj [("addResults", JSValue.arr [])]))
      (JSValue.bool false) (some "body2") = MutOutcome.domainErr resultsErr :=
  C6_results_shape_error _ (JSValue.bool false) "body2" _ rfl rfl rfl rfl

/-- Claim C7: a configuration without a `defaultResultOptions` key yields
exactly the built-in result options, and a caller-supplied
`defaultResultOptions` object wins per key with the built-ins filling only
the unsupplied keys. -/
theorem C7_construction_defaults (opts sub : List (String × JSValue)) :
    (lookupJS opts "defaultResultOptions" = JSValue.undef →
      lookupJS (mkFeatureService (some opts)).settings "defaultResultOptions"
        = JSValue.obj builtinResultOptions)
    ∧ (lookupJS opts "defaultResultOptions" = JSValue.obj sub →
      ∀ k, lookupJS (objFields (lookupJS (mkFeatureService (some opts)).settings
            "defaultResultOptions")) k
        = if isUndef (lookupJS sub k) = true then lookupJS builtinResultOptions k
          else lookupJS sub k) := by
  constructor
  · intro h
    have h1 : lookupJS (mergedSettings opts) "defaultResultOptions"
        = JSValue.obj builtinResultOptions := by
      rw [mergedSettings, lookupJS_defaults, h]; rfl
    have h2 : isTruthy (JSValue.obj builtinResultOptions) = true := rfl
    simp [mkFeatureService, h1, h2, objFields, defaults_builtin_self, lookupJS_setKey_self]
  · intro h k
    have h1 : lookupJS (mergedSettings opts) "defaultResultOptions" = JSValue.obj sub := by
      rw [mergedSettings, lookupJS_defaults, h]; rfl
    have h2 : isTruthy (JSValue.obj sub) = true := rfl
    simp [mkFeatureService, h1, h2, objFields, lookupJS_setKey_self, lookupJS_defaults]

/-- Witness for C7: built-ins when the key is absent; with
`{ defaultResultOptions: { outSR: '3857' } }` the caller's `outSR` wins and
the built-in `f` fills the gap. -/
theorem C7_construction_defaults_witness :
    lookupJS (mkFeatureService (some [("url", JSValue.str "u")])).settings "defaultResultOptions"
      = JSValue.obj builtinResultOptions
    ∧ lookupJS (objFields (lookupJS (mkFeatureService (some [("defaultResultOptions",
        JSValue.obj [("outSR", JSValue.str "3857")])])).settings "defaultResultOptions")) "outSR"
      = JSValue.str "3857"
    ∧ lookupJS (objFields (lookupJS (mkFeatureService (some [("defaultResultOptions",
        JSValue.obj [("outSR", JSValue.str "3857")])])).settings "defaultResultOptions")) "f"
      = JSValue.str "json" := by
  refine ⟨(C7_construction_defaults [("url", JSValue.str "u")] []).1 rfl, ?_, ?_⟩
  · have h := (C7_construction_defaults
      [("defaultResultOptions", JSValue.obj [("outSR", JSValue.str "3857")])]
      [("outSR", JSValue.str "3857")]).2 rfl "outSR"
    simpa using h
  · have h := (C7_construction_defaults
      [("defaultResultOptions", JSValue.obj [("outSR", JSValue.str "3857")])]
      [("outSR", JSValue.str "3857")]).2 rfl "f"
    simpa using h

/-- Claim C8: every outbound `add` and `update` request carries a `features`
form field that is the JSON serialization of an array of exactly one element
— the single converted (and, for `update`, identifier-coerced) feature. -/
theorem C8_single_feature (convert : JSValue → JSValue) (inst : FSInstance) (g : JSValue)
    (fs attrs : List (String × JSValue))
    (hconv : convert g = JSValue.obj fs)
    (hattrs : lookupJS fs "attributes" = JSValue.obj attrs) :
    lookupJS (FSadd convert inst g).form "features"
      = JSValue.str (jsonStringify (JSValue.arr [convert g]))
    ∧ ∃ req e, FSupdate convert inst g = some req
        ∧ lookupJS req.form "features" = JSValue.str (jsonStringify (JSValue.arr [e])) := by
  refine ⟨rfl, ?_⟩
  have hc : coerceObjectId (convert g)
      = some (JSValue.obj (setKey fs "attributes"
          (JSValue.obj (setKey attrs "OBJECTID"
            (JSValue.num (jsNumber (lookupJS attrs "OBJECTID"))))))) := by
    rw [hconv]; simp only [coerceObjectId, hattrs]
  have hu : FSupdate convert inst g
      = some (PostRequest.mk (jsToString (lookupJS inst.settings "url") ++ "/updateFeatures")
          [("f", JSValue.str "json"),
           ("features", JSValue.str (jsonStringify (JSValue.arr [JSValue.obj (setKey fs "attributes"
             (JSValue.obj (setKey attrs "OBJECTID"
               (JSValue.num (jsNumber (lookupJS attrs "OBJECTID"))))))]))),
           ("token", inst.token)]) := by
    unfold FSupdate; rw [hc]
  exact ⟨_, _, hu, rfl⟩

/-- Witness for C8 at a concrete feature with an empty attributes object. -/
theorem C8_single_feature_witness :
    lookupJS (FSadd (fun _ => JSValue.obj [("attributes", JSValue.obj [])])
        (mkFeatureService none) JSValue.null).form "features"
      = JSValue.str (jsonStringify (JSValue.arr [JSValue.obj [("attributes", JSValue.obj [])]]))
    ∧ ∃ req e, FSupdate (fun _ => JSValue.obj [("attributes", JSValue.obj [])])
        (mkFeatureService none) JSValue.null = some req
        ∧ lookupJS req.form "features" = JSValue.str (jsonStringify (JSValue.arr [e])) :=
  C8_single_feature _ (mkFeatureService none) JSValue.null _ [] rfl rfl

/-- Claim C9: a `get` call leaves the stored configuration — in particular
the stored `defaultResultOptions` — untouched: the instance after the call
is the instance before it.  The merge writes into the caller's params object
(`paramsAfter`), never into the settings: the method body contains no
assignment to `this.settings`. -/
theorem C9_get_settings_frame (convert : JSValue → JSValue) (inst : FSInstance)
    (params : List (String × JSValue)) (err body : JSValue) :
    (FSget convert inst params err body).instAfter = inst := rfl

/-- Claim C10: in the `get` response handler, a no-error transport outcome
with a `null` or `undefined` body dereferences `body.error` without a guard
and throws, so the callback is never invoked — the handler is total only
when a no-error outcome comes with a non-nullish body. -/
theorem C10_nullish_body_throws (convert : JSValue → JSValue) (err body : JSValue)
    (herr : isTruthy err = false) (hbody : isNullish body = true) :
    getHandler convert err body = GetOutcome.threw := by
  simp [getHandler, herr, hbody]

/-- Witness for C10 at a `null` body. -/
theorem C10_nullish_body_throws_witness :
    getHandler (fun v => v) JSValue.undef JSValue.null = GetOutcome.threw :=
  C10_nullish_body_throws (fun v => v) JSValue.undef JSValue.null rfl rfl

end FeatureServiceSpec
